import Mathlib

/-!
Verification development for the PIC2TXT task orchestration engine.

The definitions below are a shallow embedding of the Python sources:
`src/services/task_service.py`, `src/database/db_manager.py`,
`src/database/models.py`, `src/services/xhs_note_service.py`,
`src/services/csv_service.py` and `src/utils/csv_utils.py`.
The persistent SQLite store is embedded as an explicit `Store` value
threaded through every operation; the download service, the OCR engines
and the video service are parameters of an `Env` record, matching the
collaborator contracts of the code.  Timing effects (rate-limit sleeps,
retry backoff sleeps) have no observable effect on any state or return
value and are not modelled.
-/

/-- Task status constant from `src/database/models.py`. -/
def TASK_STATUS_PENDING : String := "pending"

/-- Task status constant from `src/database/models.py`. -/
def TASK_STATUS_PROCESSING : String := "processing"

/-- Task status constant from `src/database/models.py`. -/
def TASK_STATUS_COMPLETED : String := "completed"

/-- Task status constant from `src/database/models.py`. -/
def TASK_STATUS_FAILED : String := "failed"

/-- Modelled from the spec: the task kind constant for image tasks.
`TASK_TYPE_IMAGE` is imported from `database.models` by
`src/services/task_service.py` but its definition is missing from
`src/database/models.py`; the spec describes the task kind attribute as
"image vs. video". -/
def TASK_TYPE_IMAGE : String := "image"

/-- Modelled from the spec: the task kind constant for video tasks, see
`TASK_TYPE_IMAGE`. -/
def TASK_TYPE_VIDEO : String := "video"

/-- One row of the `tasks` table (`CREATE_TASKS_TABLE` in
`src/database/models.py`).  The `task_type` column is read through
`task.get("task_type")` by `process_tasks_in_parallel`; it is modelled
from the spec because the table definition shipped in
`src/database/models.py` predates it. -/
structure TaskRow where
  id : Nat
  url : Option String
  file_path : Option String
  status : String
  ocr_engine : String
  task_type : String
  error_message : Option String
  deriving Repr, DecidableEq

/-- One row of the `results` table (`CREATE_RESULTS_TABLE` in
`src/database/models.py`). -/
structure ResultRow where
  id : Nat
  task_id : Nat
  text_content : String
  result_path : String
  deriving Repr, DecidableEq

/-- One row of the `note_task_relations` table.  The code stores the two
id lists JSON-encoded in text columns; the embedding keeps them as lists
(the JSON round trip used by `src/services/xhs_note_service.py` is the
identity on lists of integers). -/
structure NoteRelation where
  id : Nat
  note_url : String
  task_ids : List Nat
  video_task_ids : List Nat
  status : String
  deriving Repr, DecidableEq

/-- The embedded persistent store: the SQLite database owned by
`DatabaseManager` in `src/database/db_manager.py`. -/
structure Store where
  tasks : List TaskRow
  results : List ResultRow
  relations : List NoteRelation
  nextTaskId : Nat
  nextResultId : Nat
  nextRelationId : Nat
  deriving Repr, DecidableEq

/-- A freshly initialized database (SQLite AUTOINCREMENT ids start at 1). -/
def emptyStore : Store :=
  { tasks := [], results := [], relations := [],
    nextTaskId := 1, nextResultId := 1, nextRelationId := 1 }

/-- Python truthiness of an optional string column value: `None` and the
empty string are falsy. -/
def truthy : Option String → Bool
  | none => false
  | some s => !(s == "")

/-- `DatabaseManager.get_task`: `SELECT * FROM tasks WHERE id = ?`. -/
def get_task (s : Store) (taskId : Nat) : Option TaskRow :=
  s.tasks.find? (fun t => t.id == taskId)

/-- `DatabaseManager.get_all_tasks` (the `created_at` sort key only
reorders rows; the embedding returns insertion order, which is all the
counting logic of `delete_all_tasks` depends on). -/
def get_all_tasks (s : Store) : List TaskRow :=
  s.tasks

/-- `DatabaseManager.update_task_status`: sets `status` and
`error_message` (the Python default `error_message=None` overwrites any
previous message with NULL) on every row matching the id. -/
def update_task_status (s : Store) (taskId : Nat) (status : String)
    (errorMessage : Option String) : Store :=
  { s with tasks := s.tasks.map (fun t =>
      if t.id == taskId then
        { t with status := status, error_message := errorMessage }
      else t) }

/-- `DatabaseManager.update_task_file_path`. -/
def update_task_file_path (s : Store) (taskId : Nat) (filePath : String) :
    Store :=
  { s with tasks := s.tasks.map (fun t =>
      if t.id == taskId then { t with file_path := some filePath } else t) }

/-- `DatabaseManager.create_task`: inserts a `pending` row and returns its
id.  The row carries the task kind; the production schema column and the
`task_type=...` keyword accepted by the manager are missing from
`src/database/models.py` and `src/database/db_manager.py`, so that part is
modelled from the spec (`create_task(url?, file_path?, engine, kind=image)`). -/
def db_create_task (s : Store) (url filePath : Option String)
    (ocrEngine : String) (taskType : String) : Nat × Store :=
  let row : TaskRow :=
    { id := s.nextTaskId, url := url, file_path := filePath,
      status := TASK_STATUS_PENDING, ocr_engine := ocrEngine,
      task_type := taskType, error_message := none }
  (s.nextTaskId, { s with tasks := s.tasks ++ [row],
                          nextTaskId := s.nextTaskId + 1 })

/-- `TaskService.create_task` from `src/services/task_service.py`: a
direct passthrough to `DatabaseManager.create_task` with no input
validation. -/
def create_task (s : Store) (url filePath : Option String)
    (ocrEngine : String) : Nat × Store :=
  db_create_task s url filePath ocrEngine TASK_TYPE_IMAGE

/-- `TaskService.create_video_task`. -/
def create_video_task (s : Store) (url filePath : Option String)
    (videoEngine : String) : Nat × Store :=
  db_create_task s url filePath videoEngine TASK_TYPE_VIDEO

/-- `DatabaseManager.create_result`: inserts a result row and then marks
the owning task `completed` (clearing its error message). -/
def create_result (s : Store) (taskId : Nat) (textContent resultPath : String) :
    Nat × Store :=
  let s1 := { s with
    results := s.results ++
      [{ id := s.nextResultId, task_id := taskId,
         text_content := textContent, result_path := resultPath }],
    nextResultId := s.nextResultId + 1 }
  (s.nextResultId, update_task_status s1 taskId TASK_STATUS_COMPLETED none)

/-- `DatabaseManager.get_results_by_task`. -/
def get_results_by_task (s : Store) (taskId : Nat) : List ResultRow :=
  s.results.filter (fun r => r.task_id == taskId)

/-- `TaskService.get_task_result`: the first result row of the task, or
none. -/
def get_task_result (s : Store) (taskId : Nat) : Option ResultRow :=
  (get_results_by_task s taskId).head?

/-- `DatabaseManager.delete_task`: deletes the result rows of the task,
then the task row, and returns `True` unconditionally — the SQL DELETE
statements succeed (affecting zero rows) whether or not the id exists,
and only a storage-layer exception produces `False`. -/
def db_delete_task (s : Store) (taskId : Nat) : Bool × Store :=
  (true,
   { s with
     results := s.results.filter (fun r => !(r.task_id == taskId)),
     tasks := s.tasks.filter (fun t => !(t.id == taskId)) })

/-- `TaskService.delete_task`: passthrough to the manager (the `except`
arm only fires on storage-layer exceptions, which the embedded store does
not produce). -/
def delete_task (s : Store) (taskId : Nat) : Bool × Store :=
  db_delete_task s taskId

/-- Loop body accumulator for `TaskService.delete_all_tasks`. -/
def delete_all_tasks_loop (rows : List TaskRow) (s : Store) (count : Nat) :
    Nat × Store :=
  match rows with
  | [] => (count, s)
  | t :: rest =>
    let (ok, s1) := delete_task s t.id
    delete_all_tasks_loop rest s1 (if ok then count + 1 else count)

/-- `TaskService.delete_all_tasks`: fetches all tasks, deletes each, and
counts every `True` return. -/
def delete_all_tasks (s : Store) : Nat × Store :=
  delete_all_tasks_loop (get_all_tasks s) s 0

/-- The structured result returned by a processing engine call
(`ocr_service.process_image`, `video_service.process_video`): a success
flag with text content and artifact path, or a failure with an error
text.  Mirrors the result dicts consumed in
`src/services/task_service.py`. -/
structure EngineResult where
  success : Bool
  error : String
  text_content : String
  result_path : String
  deriving Repr, DecidableEq

/-- The external collaborators of `TaskService`
(`src/services/task_service.py` lines 26-41): the download service, the
OCR engine selected per engine name, and the video service.  Each is a
pure stub, matching the collaborator contracts. -/
structure Env where
  download : String → Option String
  ocr : String → String → EngineResult
  video : String → EngineResult

/-- `TaskService.__init__`: `self.max_retries = 2`. -/
def max_retries : Nat := 2

/-- Boolean substring test (Python `needle in haystack`). -/
def strContains (haystack needle : String) : Bool :=
  go haystack.data
where
  go : List Char → Bool
    | [] => needle.data.isEmpty
    | c :: rest => needle.data.isPrefixOf (c :: rest) || go rest

/-- The transient-failure classification of `TaskService.process_task`
line 129: retry only when the engine error text contains one of the
signatures "频率限制", "Max retries exceeded" or "SSLError". -/
def isTransientError (e : String) : Bool :=
  strContains e "频率限制" || strContains e "Max retries exceeded" ||
    strContains e "SSLError"

/-- The outcome of one `process_task`/`process_video_task` run: the
boolean return value, the store after all its writes, and the number of
engine invocations performed (instrumentation used to state the retry
counting claims). -/
structure ProcOutcome where
  ok : Bool
  store : Store
  engineCalls : Nat
  deriving Repr, DecidableEq

/-- The download step at the head of the `process_task` retry loop
(lines 104-115): if a URL is present and no (truthy) file path yet,
download; a falsy download result marks the task `failed` with
"下载失败"; otherwise the store records the new file path.
`Sum.inl` is the early `return False`; `Sum.inr` carries the (possibly
updated) file path and store into the OCR step. -/
def download_step (env : Env) (taskId : Nat) (url filePath : Option String)
    (s : Store) : Sum Store (Option String × Store) :=
  if truthy url && !truthy filePath then
    match env.download (url.getD "") with
    | none => Sum.inl (update_task_status s taskId TASK_STATUS_FAILED
        (some "下载失败"))
    | some p =>
      if p == "" then
        Sum.inl (update_task_status s taskId TASK_STATUS_FAILED
          (some "下载失败"))
      else
        Sum.inr (some p, update_task_file_path s taskId p)
  else
    Sum.inr (filePath, s)

/-- The retry loop of `TaskService.process_task` (lines 99-176).  `fuel`
is `max_retries + 1 - retry_count`, so the `while retry_count <=
max_retries` guard is `fuel > 0` and the post-increment check
`retry_count > max_retries` is `fuel - 1 = 0`; the `fuel = 0` case is the
fall-through after the loop (line 175).  Each iteration runs the download
step, invokes the selected OCR engine on the current file path, and on a
failure either retries (transient signature, retries left), or marks the
task `failed` with the engine error.  On success it persists a result row
(which marks the task `completed`) and sets `completed` once more. -/
def process_loop (env : Env) (taskId : Nat) (ocrEngine : String)
    (url : Option String) :
    Option String → Store → Nat → Nat → ProcOutcome
  | _, s, 0, calls =>
    { ok := false,
      store := update_task_status s taskId TASK_STATUS_FAILED
        (some "达到最大重试次数后仍然失败"),
      engineCalls := calls }
  | filePath, s, fuel + 1, calls =>
    match download_step env taskId url filePath s with
    | Sum.inl sFail => { ok := false, store := sFail, engineCalls := calls }
    | Sum.inr (fp, s1) =>
      let r := env.ocr ocrEngine (fp.getD "")
      if r.success then
        let s2 := (create_result s1 taskId r.text_content r.result_path).2
        let s3 := update_task_status s2 taskId TASK_STATUS_COMPLETED none
        { ok := true, store := s3, engineCalls := calls + 1 }
      else if isTransientError r.error then
        if fuel == 0 then
          { ok := false,
            store := update_task_status s1 taskId TASK_STATUS_FAILED
              (some r.error),
            engineCalls := calls + 1 }
        else
          process_loop env taskId ocrEngine url fp s1 fuel (calls + 1)
      else
        { ok := false,
          store := update_task_status s1 taskId TASK_STATUS_FAILED
            (some r.error),
          engineCalls := calls + 1 }

/-- `TaskService.process_task` (lines 72-176): fetch the task (a missing
id returns `False` before any write), set it `processing`, then run the
retry loop. -/
def process_task (env : Env) (s : Store) (taskId : Nat) : ProcOutcome :=
  match get_task s taskId with
  | none => { ok := false, store := s, engineCalls := 0 }
  | some t =>
    let s1 := update_task_status s taskId TASK_STATUS_PROCESSING none
    process_loop env taskId t.ocr_engine t.url t.file_path s1
      (max_retries + 1) 0

/-- The platform check in `process_video_task` line 288. -/
def isXhsUrl (url : String) : Bool :=
  strContains url "xiaohongshu.com" || strContains url "xhscdn.com"

/-- The shared tail of `process_video_task` (lines 325-347): run the
video engine on an input (a platform URL or a local file path) and either
persist a result and mark the task `completed`, or mark it `failed` with
the reported error. -/
def process_video_input (env : Env) (taskId : Nat) (input : String)
    (s : Store) : ProcOutcome :=
  let r := env.video input
  if r.success then
    let s1 := (create_result s taskId r.text_content r.result_path).2
    let s2 := update_task_status s1 taskId TASK_STATUS_COMPLETED none
    { ok := true, store := s2, engineCalls := 1 }
  else
    { ok := false,
      store := update_task_status s taskId TASK_STATUS_FAILED (some r.error),
      engineCalls := 1 }

/-- `TaskService.process_video_task` (lines 263-374).  The enclosing
retry loop there only re-runs on Python exceptions, which the pure
collaborator stubs never raise, so every run returns within the first
iteration: fetch the task, set `processing`, then — with a URL and no
truthy file path — either hand a 小红书 platform URL straight to the
video service or download first; with a truthy file path, process the
file; with neither, mark the task `failed` with
"任务没有URL或文件路径". -/
def process_video_task (env : Env) (s : Store) (taskId : Nat) : ProcOutcome :=
  match get_task s taskId with
  | none => { ok := false, store := s, engineCalls := 0 }
  | some t =>
    let s1 := update_task_status s taskId TASK_STATUS_PROCESSING none
    let url := t.url
    let filePath := t.file_path
    if truthy url && !truthy filePath then
      if isXhsUrl (url.getD "") then
        process_video_input env taskId (url.getD "") s1
      else
        match env.download (url.getD "") with
        | none =>
          { ok := false,
            store := update_task_status s1 taskId TASK_STATUS_FAILED
              (some "下载视频失败"),
            engineCalls := 0 }
        | some p =>
          if p == "" then
            { ok := false,
              store := update_task_status s1 taskId TASK_STATUS_FAILED
                (some "下载视频失败"),
              engineCalls := 0 }
          else
            process_video_input env taskId p (update_task_file_path s1 taskId p)
    else if truthy filePath then
      process_video_input env taskId (filePath.getD "") s1
    else
      { ok := false,
        store := update_task_status s1 taskId TASK_STATUS_FAILED
          (some "任务没有URL或文件路径"),
        engineCalls := 0 }

/-- Sequentially runs one processing function over a list of task ids,
threading the store and collecting `(id, success)` pairs — one faithful
linearization of the bounded worker pool of
`TaskService.process_tasks_in_parallel` (tasks are independent rows; the
pool collects each future into `results[task_id]`). -/
def run_all (f : Store → Nat → ProcOutcome) (s : Store) :
    List Nat → List (Nat × Bool) × Store
  | [] => ([], s)
  | taskId :: rest =>
    let r := f s taskId
    let (tail, sEnd) := run_all f r.store rest
    ((taskId, r.ok) :: tail, sEnd)

/-- `TaskService.process_tasks_in_parallel` (lines 387-438): partition the
ids — an id with no stored task is mapped to `False` immediately, image
kind ids go to `process_task`, video kind ids to `process_video_task`,
any other kind is silently dropped — then run the per-task processors and
collect `(id, success)` into the result mapping (an association list with
first-match lookup; the partition keys and the processed keys are
disjoint, so insertion order of the dict is immaterial). -/
def process_tasks_in_parallel (env : Env) (s : Store) (taskIds : List Nat) :
    List (Nat × Bool) × Store :=
  let missing := taskIds.filter (fun i => (get_task s i).isNone)
  let imageTasks := taskIds.filter (fun i =>
    match get_task s i with
    | some t => t.task_type == TASK_TYPE_IMAGE
    | none => false)
  let videoTasks := taskIds.filter (fun i =>
    match get_task s i with
    | some t => t.task_type == TASK_TYPE_VIDEO
    | none => false)
  let ir := run_all (process_task env) s imageTasks
  let vr := run_all (process_video_task env) ir.2 videoTasks
  (missing.map (fun i => (i, false)) ++ ir.1 ++ vr.1, vr.2)

/-- Modelled from the spec: relation lookup by note URL.  The Python code
reaches the `note_task_relations` table through
`DatabaseManager.execute_query("SELECT ... WHERE note_url = ?")`, a
method whose definition is missing from `src/database/db_manager.py`
(only its callers in `src/services/xhs_note_service.py` are in the
sources); the spec gives the store contract "unique business key =
normalized note URL", so the lookup returns the row matching the URL. -/
def find_relation (s : Store) (noteUrl : String) : Option NoteRelation :=
  s.relations.find? (fun r => r.note_url == noteUrl)

/-- `XHSNoteService.get_note_relation_id`: the relation id, or -1 (here
`none`) when no relation exists for the URL. -/
def get_note_relation_id (s : Store) (noteUrl : String) : Option Nat :=
  (find_relation s noteUrl).map (fun r => r.id)

/-- `XHSNoteService._save_note_task_relation` (lines 408-456): overwrite
the id lists of an existing relation for the URL, or insert a new
`pending` relation carrying the image task ids (in creation order) and
the video task ids. -/
def save_note_task_relation (s : Store) (noteUrl : String)
    (imageTaskIds videoTaskIds : List Nat) : Nat × Store :=
  match find_relation s noteUrl with
  | some rel =>
    (rel.id,
     { s with relations := s.relations.map (fun r =>
         if r.id == rel.id then
           { r with task_ids := imageTaskIds,
                    video_task_ids := videoTaskIds }
         else r) })
  | none =>
    (s.nextRelationId,
     { s with
       relations := s.relations ++
         [{ id := s.nextRelationId, note_url := noteUrl,
            task_ids := imageTaskIds, video_task_ids := videoTaskIds,
            status := TASK_STATUS_PENDING }],
       nextRelationId := s.nextRelationId + 1 })

/-- The 1-based index marker prefixed to each merged OCR entry by
`XHSNoteService.get_note_ocr_results` line 174. -/
def ocr_mark (index : Nat) (text : String) : String :=
  "【图片" ++ toString index ++ "内容解析】\n" ++ text

/-- `XHSNoteService.get_note_ocr_results` (lines 136-182): load the
relation for the URL (no relation yields ""), then walk its `task_ids`
list in stored order; for each task with a result, emit the 1-based index
marker plus the text content; tasks without a result are silently
skipped; join the entries with blank lines. -/
def get_note_ocr_results (s : Store) (noteUrl : String) : String :=
  match find_relation s noteUrl with
  | none => ""
  | some rel =>
    String.intercalate "\n\n"
      ((rel.task_ids.enum).filterMap (fun p =>
        (get_task_result s p.2).map (fun r => ocr_mark (p.1 + 1) r.text_content)))

/-- Split a character list at the first occurrence of `c`: the part
before it, and (when present) the part after it. -/
def splitAtFirst (c : Char) : List Char → List Char × Option (List Char)
  | [] => ([], none)
  | x :: xs =>
    if x == c then ([], some xs)
    else
      let p := splitAtFirst c xs
      (x :: p.1, p.2)

/-- The characters Python `urllib.parse` accepts inside a URL scheme. -/
def isSchemeChar (c : Char) : Bool :=
  c.isAlpha || c.isDigit || c == '+' || c == '-' || c == '.'

/-- The scheme-stripping step of `urllib.parse.urlsplit`: when the text
before the first ':' is a nonempty run of scheme characters starting with
a letter, everything after the ':' remains; otherwise the URL is
unchanged. -/
def dropScheme (l : List Char) : List Char :=
  match splitAtFirst ':' l with
  | (before, some after) =>
    if !before.isEmpty && before.all isSchemeChar &&
        (before.headD ' ').isAlpha then after
    else l
  | (_, none) => l

/-- The netloc-stripping step of `urllib.parse.urlsplit`: after a leading
"//", drop the authority, which extends to the first '/', '?' or '#'. -/
def dropNetloc (l : List Char) : List Char :=
  match l with
  | '/' :: '/' :: rest =>
    rest.dropWhile (fun c => !(c == '/' || c == '?' || c == '#'))
  | _ => l

/-- Truncate at the first occurrence of `c` (the `split(c, 1)[0]` steps
of `urlsplit` removing fragment and query). -/
def cutAt (c : Char) (l : List Char) : List Char :=
  l.takeWhile (fun x => !(x == c))

/-- The `.path` component of `urllib.parse.urlparse(url)` as used by
`XHSNoteService._normalize_note_url`: strip scheme, authority, fragment
and query.  (The params component split off by `urlparse` is a ";"-led
suffix of the last segment; it can neither contain "/explore/" nor
intersect an alphanumeric capture, so keeping it in the path leaves
`normalize_note_url` unchanged.) -/
def url_path (url : String) : List Char :=
  cutAt '?' (cutAt '#' (dropNetloc (dropScheme url.data)))

/-- ASCII alphanumeric: the regex class `[a-zA-Z0-9]`. -/
def isAlnumAscii (c : Char) : Bool :=
  c.isAlpha || c.isDigit

/-- The literal of the note-id regex `/explore/([a-zA-Z0-9]+)`. -/
def exploreLit : List Char :=
  "/explore/".data

/-- Attempt the regex match anchored at the head of `l`: the literal
"/explore/" followed by a maximal nonempty run of `[a-zA-Z0-9]`. -/
def explore_capture (l : List Char) : Option (List Char) :=
  if exploreLit.isPrefixOf l then
    let cap := (l.drop exploreLit.length).takeWhile isAlnumAscii
    if cap.isEmpty then none else some cap
  else none

/-- `re.search(r"/explore/([a-zA-Z0-9]+)", path)`: try the anchored match
at every position, left to right, and return the first capture. -/
def search_explore : List Char → Option (List Char)
  | [] => none
  | c :: rest =>
    match explore_capture (c :: rest) with
    | some cap => some cap
    | none => search_explore rest

/-- The note identifier extracted from a URL by
`XHSNoteService._normalize_note_url` lines 501-507. -/
def find_note_id (url : String) : Option String :=
  (search_explore (url_path url)).map (fun l => String.mk l)

/-- The canonical note URL built at line 509. -/
def canonical_note_url (noteId : String) : String :=
  "https://www.xiaohongshu.com/explore/" ++ noteId

/-- `XHSNoteService._normalize_note_url` (lines 484-511): empty input
maps to ""; when the note-id regex matches the URL path, rewrite to the
canonical form; otherwise return the URL unchanged. -/
def normalize_note_url (url : String) : String :=
  if url == "" then ""
  else
    match find_note_id url with
    | some noteId => canonical_note_url noteId
    | none => url

/-- A parsed tabular input as `pandas` presents it to
`src/services/csv_service.py`: column names plus data rows. -/
structure DataFrame where
  columns : List String
  rows : List (List String)
  deriving Repr, DecidableEq

/-- `pandas.DataFrame.empty`: true when either axis has length zero. -/
def df_empty (df : DataFrame) : Bool :=
  df.rows.isEmpty || df.columns.isEmpty

/-- `validate_csv_structure` from `src/utils/csv_utils.py` (lines
92-110): an empty frame fails with "CSV文件为空"; otherwise every
required field must appear among the columns, and the failure message
names the missing fields. -/
def validate_csv_structure (df : DataFrame) (requiredFields : List String) :
    Bool × String :=
  if df_empty df then (false, "CSV文件为空")
  else
    let missing := requiredFields.filter (fun f => !(df.columns.contains f))
    if missing.isEmpty then (true, "")
    else (false, "CSV文件缺少必要字段: " ++ String.intercalate ", " missing)

/-- `add_column_if_not_exists` from `src/utils/csv_utils.py`. -/
def add_column_if_not_exists (df : DataFrame) (columnName : String)
    (defaultValue : String) : DataFrame :=
  if df.columns.contains columnName then df
  else { df with columns := df.columns ++ [columnName],
                 rows := df.rows.map (fun r => r ++ [defaultValue]) }

/-- `CSVService.process_csv_file` (lines 57-157) up to and including the
structure validation, which is all that executes for the inputs the
validation rejects.  `readResult` is the outcome of `read_csv` (`none`
when the file cannot be read); `rest` is the remainder of the pipeline —
row iteration, task dispatch, result write-back and the output file write
— abstracted as a function of the validated frame that reports, alongside
the `(success, message, output_path)` triple, the list of output files it
wrote.  An unreadable file returns "无法读取CSV文件"; a frame rejected by
`validate_csv_structure` for the required `note_url` column returns
`(false, error_msg, none)` before the pipeline runs, so no output file is
written. -/
def process_csv_file (readResult : Option DataFrame)
    (rest : DataFrame → (Bool × String × Option String) × List String) :
    (Bool × String × Option String) × List String :=
  match readResult with
  | none => ((false, "无法读取CSV文件", none), [])
  | some df =>
    let v := validate_csv_structure df ["note_url"]
    if v.1 then rest (add_column_if_not_exists df "image_txt" "")
    else ((false, v.2, none), [])

/-! ### Store lemmas -/

theorem find_map_keep_id (l : List TaskRow) (taskId : Nat) (t : TaskRow)
    (f : TaskRow → TaskRow) (hf : ∀ u, (f u).id = u.id)
    (h : l.find? (fun u => u.id == taskId) = some t) :
    (l.map (fun u => if u.id == taskId then f u else u)).find?
      (fun u => u.id == taskId) = some (f t) := by
  induction l with
  | nil => simp [List.find?] at h
  | cons x xs ih =>
    cases hx : (x.id == taskId) with
    | true =>
      have hfx : ((f x).id == taskId) = true := by rw [hf]; exact hx
      simp only [List.find?_cons, hx] at h
      obtain rfl : x = t := by injection h
      rw [List.map_cons, if_pos hx]
      simp only [List.find?_cons, hfx]
    | false =>
      simp only [List.find?_cons, hx] at h
      rw [List.map_cons, if_neg (by simp [hx])]
      simp only [List.find?_cons, hx]
      exact ih h

theorem find_map_other_id (l : List TaskRow) (taskId otherId : Nat)
    (f : TaskRow → TaskRow) (hf : ∀ u, (f u).id = u.id)
    (hne : otherId ≠ taskId) :
    (l.map (fun u => if u.id == taskId then f u else u)).find?
      (fun u => u.id == otherId) = l.find? (fun u => u.id == otherId) := by
  induction l with
  | nil => rfl
  | cons x xs ih =>
    cases hxo : (x.id == otherId) with
    | true =>
      have hxt : (x.id == taskId) = false := by
        have hx' : x.id = otherId := eq_of_beq hxo
        rw [hx']
        exact beq_eq_false_iff_ne.mpr hne
      rw [List.map_cons, if_neg (by simp [hxt])]
      simp only [List.find?_cons, hxo]
    | false =>
      cases hxt : (x.id == taskId) with
      | true =>
        have hfxo : ((f x).id == otherId) = false := by rw [hf]; exact hxo
        rw [List.map_cons, if_pos hxt]
        simp only [List.find?_cons, hfxo, hxo]
        exact ih
      | false =>
        rw [List.map_cons, if_neg (by simp [hxt])]
        simp only [List.find?_cons, hxo]
        exact ih

theorem get_task_update_status_self (s : Store) (taskId : Nat) (t : TaskRow)
    (st : String) (e : Option String) (h : get_task s taskId = some t) :
    get_task (update_task_status s taskId st e) taskId =
      some { t with status := st, error_message := e } := by
  exact find_map_keep_id s.tasks taskId t _ (fun u => rfl) h

theorem get_task_update_status_other (s : Store) (taskId otherId : Nat)
    (st : String) (e : Option String) (hne : otherId ≠ taskId) :
    get_task (update_task_status s taskId st e) otherId =
      get_task s otherId := by
  exact find_map_other_id s.tasks taskId otherId _ (fun u => rfl) hne

theorem get_task_update_file_path_other (s : Store) (taskId otherId : Nat)
    (p : String) (hne : otherId ≠ taskId) :
    get_task (update_task_file_path s taskId p) otherId =
      get_task s otherId := by
  exact find_map_other_id s.tasks taskId otherId _ (fun u => rfl) hne

theorem get_task_create_result_other (s : Store) (taskId otherId : Nat)
    (tc rp : String) (hne : otherId ≠ taskId) :
    get_task (create_result s taskId tc rp).2 otherId = get_task s otherId := by
  unfold create_result
  exact find_map_other_id _ taskId otherId _ (fun u => rfl) hne

/-! ### C1 -/

/-- Claim C1, as stated, is false on the code: calling `create_task` with
neither a URL nor a file path does not fail — there is no
`InvalidInputError` anywhere in the sources and neither
`TaskService.create_task` nor `DatabaseManager.create_task` validates its
inputs — and a `pending` task row IS persisted.  Concretely, on a fresh
store the call returns task id 1 and the store then holds one pending row
with empty url and file path. -/
theorem c1_counterexample_empty_create_persists :
    (create_task emptyStore none none "local").1 = 1 ∧
    get_task (create_task emptyStore none none "local").2 1 =
      some { id := 1, url := none, file_path := none,
             status := TASK_STATUS_PENDING, ocr_engine := "local",
             task_type := TASK_TYPE_IMAGE, error_message := none } ∧
    (create_task emptyStore none none "local").2.tasks.length = 1 := by
  refine ⟨rfl, rfl, rfl⟩

/-- Claim C1 (amended): for every call to `create_task` in which both the
url and file_path arguments are empty, the call succeeds — no error is
raised — and a `pending` task row with those empty fields is persisted to
the store and its id returned.  (The invalid-input condition is not
checked at creation time.) -/
theorem c1_create_task_no_validation (s : Store) (url filePath : Option String)
    (eng : String) (hu : truthy url = false) (hf : truthy filePath = false) :
    (create_task s url filePath eng).2.tasks =
      s.tasks ++
        [{ id := s.nextTaskId, url := url, file_path := filePath,
           status := TASK_STATUS_PENDING, ocr_engine := eng,
           task_type := TASK_TYPE_IMAGE, error_message := none }] ∧
    (create_task s url filePath eng).1 = s.nextTaskId := by
  exact ⟨rfl, rfl⟩

/-- Witness for `c1_create_task_no_validation` at a concrete empty-input
call on the fresh store. -/
theorem c1_create_task_no_validation_witness :
    truthy none = false ∧
    ((create_task emptyStore none none "local").2.tasks =
      emptyStore.tasks ++
        [{ id := emptyStore.nextTaskId, url := none, file_path := none,
           status := TASK_STATUS_PENDING, ocr_engine := "local",
           task_type := TASK_TYPE_IMAGE, error_message := none }] ∧
     (create_task emptyStore none none "local").1 = emptyStore.nextTaskId) := by
  exact ⟨by decide, c1_create_task_no_validation emptyStore none none "local"
    (by decide) (by decide)⟩

/-! ### C9 -/

theorem delete_all_tasks_loop_count (rows : List TaskRow) (s : Store)
    (count : Nat) :
    (delete_all_tasks_loop rows s count).1 = count + rows.length := by
  induction rows generalizing s count with
  | nil => simp [delete_all_tasks_loop]
  | cons t rest ih =>
    simp only [delete_all_tasks_loop, delete_task, db_delete_task]
    rw [ih]
    simp [Nat.add_comm, Nat.add_assoc, Nat.add_left_comm]

/-- Claim C9: `delete_task` returns true for every task id, including ids
with no stored task row — the embedded DELETE statements succeed whether
or not they touch a row, so a true return does not witness that a task
existed — and `delete_all_tasks` counts every such true return, so its
count equals the number of rows it iterated. -/
theorem c9_delete_task_true_without_row (s : Store) (taskId : Nat)
    (h : get_task s taskId = none) :
    (delete_task s taskId).1 = true ∧
    (delete_all_tasks s).1 = (get_all_tasks s).length := by
  refine ⟨rfl, ?_⟩
  unfold delete_all_tasks
  rw [delete_all_tasks_loop_count]
  exact Nat.zero_add _

/-- Witness for `c9_delete_task_true_without_row`: deleting the absent id
7 from the fresh store returns true, and `delete_all_tasks` there counts
zero. -/
theorem c9_delete_task_true_without_row_witness :
    get_task emptyStore 7 = none ∧
    ((delete_task emptyStore 7).1 = true ∧
     (delete_all_tasks emptyStore).1 = (get_all_tasks emptyStore).length) := by
  exact ⟨rfl, c9_delete_task_true_without_row emptyStore 7 rfl⟩

/-! ### C10 -/

/-- Claim C10: for every task id with no stored task row, `process_task`
returns false with the store untouched — no status update and no result
row is written on the not-found path. -/
theorem c10_process_task_not_found (env : Env) (s : Store) (taskId : Nat)
    (h : get_task s taskId = none) :
    process_task env s taskId =
      { ok := false, store := s, engineCalls := 0 } := by
  unfold process_task
  rw [h]

/-- Witness for `c10_process_task_not_found` at id 3 on the fresh store
with an engine environment that would always succeed. -/
theorem c10_process_task_not_found_witness :
    get_task emptyStore 3 = none ∧
    process_task
        { download := fun _ => some "/tmp/f.jpg",
          ocr := fun _ _ =>
            { success := true, error := "", text_content := "hello",
              result_path := "/tmp/f.txt" },
          video := fun _ =>
            { success := true, error := "", text_content := "v",
              result_path := "/tmp/v.txt" } }
        emptyStore 3 =
      { ok := false, store := emptyStore, engineCalls := 0 } := by
  exact ⟨rfl, c10_process_task_not_found _ emptyStore 3 rfl⟩

/-! ### Retry loop lemmas -/

theorem truthy_some_of_ne (fp : String) (hne : (fp == "") = false) :
    truthy (some fp) = true := by
  simp [truthy, hne]

theorem process_loop_step_skip_download (env : Env) (taskId : Nat)
    (eng : String) (url : Option String) (fp : String) (s : Store)
    (hne : (fp == "") = false) (fuel calls : Nat) :
    process_loop env taskId eng url (some fp) s (fuel + 1) calls =
      (let r := env.ocr eng fp
       if r.success then
         { ok := true,
           store := update_task_status
             (create_result s taskId r.text_content r.result_path).2 taskId
             TASK_STATUS_COMPLETED none,
           engineCalls := calls + 1 }
       else if isTransientError r.error then
         if fuel == 0 then
           { ok := false,
             store := update_task_status s taskId TASK_STATUS_FAILED
               (some r.error),
             engineCalls := calls + 1 }
         else
           process_loop env taskId eng url (some fp) s fuel (calls + 1)
       else
         { ok := false,
           store := update_task_status s taskId TASK_STATUS_FAILED
             (some r.error),
           engineCalls := calls + 1 }) := by
  have htr : truthy (some fp) = true := truthy_some_of_ne fp hne
  simp only [process_loop, download_step, htr, Bool.not_true, Bool.and_false,
    Bool.false_eq_true, if_false, Option.getD_some]

theorem process_loop_transient_stationary (env : Env) (taskId : Nat)
    (eng : String) (url : Option String) (fp : String) (s : Store)
    (hne : (fp == "") = false)
    (hfail : (env.ocr eng fp).success = false)
    (htrans : isTransientError (env.ocr eng fp).error = true)
    (fuel calls : Nat) :
    process_loop env taskId eng url (some fp) s (fuel + 1) calls =
      { ok := false,
        store := update_task_status s taskId TASK_STATUS_FAILED
          (some (env.ocr eng fp).error),
        engineCalls := calls + fuel + 1 } := by
  induction fuel generalizing calls with
  | zero =>
    rw [process_loop_step_skip_download env taskId eng url fp s hne]
    simp [hfail, htrans]
  | succ k ih =>
    rw [process_loop_step_skip_download env taskId eng url fp s hne]
    simp only [hfail, htrans, Bool.false_eq_true, if_false, if_true,
      Nat.succ_ne_zero, beq_iff_eq, if_neg (Nat.succ_ne_zero k)]
    rw [ih (calls + 1)]
    congr 1
    omega

theorem process_loop_terminal_once (env : Env) (taskId : Nat)
    (eng : String) (url : Option String) (fp : String) (s : Store)
    (hne : (fp == "") = false)
    (hfail : (env.ocr eng fp).success = false)
    (hterm : isTransientError (env.ocr eng fp).error = false)
    (fuel calls : Nat) :
    process_loop env taskId eng url (some fp) s (fuel + 1) calls =
      { ok := false,
        store := update_task_status s taskId TASK_STATUS_FAILED
          (some (env.ocr eng fp).error),
        engineCalls := calls + 1 } := by
  rw [process_loop_step_skip_download env taskId eng url fp s hne]
  simp [hfail, hterm]

/-! ### C2 -/

/-- Claim C2: for every stored task holding a (truthy) local file path,
if the selected engine always reports a failure whose error text matches
a transient-failure signature, `process_task` invokes the engine exactly
`1 + max_retries` times (3 calls with `max_retries = 2`), returns false,
and leaves the task stored as `failed`. -/
theorem c2_process_task_retry_ceiling (env : Env) (s : Store) (taskId : Nat)
    (t : TaskRow) (fp : String)
    (ht : get_task s taskId = some t)
    (hfp : t.file_path = some fp) (hne : (fp == "") = false)
    (hfail : (env.ocr t.ocr_engine fp).success = false)
    (htrans : isTransientError (env.ocr t.ocr_engine fp).error = true) :
    (process_task env s taskId).engineCalls = 1 + max_retries ∧
    (process_task env s taskId).ok = false ∧
    ∃ t', get_task (process_task env s taskId).store taskId = some t' ∧
      t'.status = TASK_STATUS_FAILED := by
  have hbody : process_task env s taskId =
      { ok := false,
        store := update_task_status
          (update_task_status s taskId TASK_STATUS_PROCESSING none)
          taskId TASK_STATUS_FAILED (some (env.ocr t.ocr_engine fp).error),
        engineCalls := 0 + 2 + 1 } := by
    unfold process_task
    rw [ht]
    show process_loop env taskId t.ocr_engine t.url t.file_path
        (update_task_status s taskId TASK_STATUS_PROCESSING none)
        (max_retries + 1) 0 = _
    rw [hfp]
    exact process_loop_transient_stationary env taskId t.ocr_engine t.url fp _
      hne hfail htrans 2 0
  rw [hbody]
  refine ⟨rfl, rfl, ?_⟩
  have h1 := get_task_update_status_self s taskId t TASK_STATUS_PROCESSING
    none ht
  have h2 := get_task_update_status_self _ taskId _ TASK_STATUS_FAILED
    (some (env.ocr t.ocr_engine fp).error) h1
  exact ⟨_, h2, rfl⟩

/-- Witness for `c2_process_task_retry_ceiling`: a concrete task with a
file path and an engine stub that always fails with an "SSLError"
signature yields exactly 3 engine calls and a `failed` task. -/
theorem c2_process_task_retry_ceiling_witness :
    get_task (create_task emptyStore none (some "/tmp/w2.jpg") "local").2 1 =
      some { id := 1, url := none, file_path := some "/tmp/w2.jpg",
             status := TASK_STATUS_PENDING, ocr_engine := "local",
             task_type := TASK_TYPE_IMAGE, error_message := none } ∧
    ((process_task
        { download := fun _ => none,
          ocr := fun _ _ =>
            { success := false, error := "SSLError: handshake",
              text_content := "", result_path := "" },
          video := fun _ =>
            { success := false, error := "", text_content := "",
              result_path := "" } }
        (create_task emptyStore none (some "/tmp/w2.jpg") "local").2
        1).engineCalls = 1 + max_retries ∧
     (process_task
        { download := fun _ => none,
          ocr := fun _ _ =>
            { success := false, error := "SSLError: handshake",
              text_content := "", result_path := "" },
          video := fun _ =>
            { success := false, error := "", text_content := "",
              result_path := "" } }
        (create_task emptyStore none (some "/tmp/w2.jpg") "local").2
        1).ok = false ∧
     ∃ t', get_task (process_task
        { download := fun _ => none,
          ocr := fun _ _ =>
            { success := false, error := "SSLError: handshake",
              text_content := "", result_path := "" },
          video := fun _ =>
            { success := false, error := "", text_content := "",
              result_path := "" } }
        (create_task emptyStore none (some "/tmp/w2.jpg") "local").2
        1).store 1 = some t' ∧ t'.status = TASK_STATUS_FAILED) := by
  exact ⟨rfl, c2_process_task_retry_ceiling _ _ 1 _ "/tmp/w2.jpg" rfl rfl
    (by decide) rfl (by decide)⟩

/-! ### C3 -/

/-- Claim C3: for every stored task holding a (truthy) local file path,
if the engine reports a failure whose error text matches no
transient-failure signature, `process_task` invokes the engine exactly
once, marks the task `failed` storing the reported error, and returns
false — no retry happens. -/
theorem c3_process_task_terminal_failure (env : Env) (s : Store)
    (taskId : Nat) (t : TaskRow) (fp : String)
    (ht : get_task s taskId = some t)
    (hfp : t.file_path = some fp) (hne : (fp == "") = false)
    (hfail : (env.ocr t.ocr_engine fp).success = false)
    (hterm : isTransientError (env.ocr t.ocr_engine fp).error = false) :
    (process_task env s taskId).engineCalls = 1 ∧
    (process_task env s taskId).ok = false ∧
    ∃ t', get_task (process_task env s taskId).store taskId = some t' ∧
      t'.status = TASK_STATUS_FAILED ∧
      t'.error_message = some (env.ocr t.ocr_engine fp).error := by
  have hbody : process_task env s taskId =
      { ok := false,
        store := update_task_status
          (update_task_status s taskId TASK_STATUS_PROCESSING none)
          taskId TASK_STATUS_FAILED (some (env.ocr t.ocr_engine fp).error),
        engineCalls := 0 + 1 } := by
    unfold process_task
    rw [ht]
    show process_loop env taskId t.ocr_engine t.url t.file_path
        (update_task_status s taskId TASK_STATUS_PROCESSING none)
        (max_retries + 1) 0 = _
    rw [hfp]
    exact process_loop_terminal_once env taskId t.ocr_engine t.url fp _
      hne hfail hterm 2 0
  rw [hbody]
  refine ⟨rfl, rfl, ?_⟩
  have h1 := get_task_update_status_self s taskId t TASK_STATUS_PROCESSING
    none ht
  have h2 := get_task_update_status_self _ taskId _ TASK_STATUS_FAILED
    (some (env.ocr t.ocr_engine fp).error) h1
  exact ⟨_, h2, rfl, rfl⟩

/-- Witness for `c3_process_task_terminal_failure`: an engine stub
reporting "invalid api key" (no transient signature) is called once and
the task ends `failed` with that error stored. -/
theorem c3_process_task_terminal_failure_witness :
    get_task (create_task emptyStore none (some "/tmp/w3.jpg") "mistral").2 1 =
      some { id := 1, url := none, file_path := some "/tmp/w3.jpg",
             status := TASK_STATUS_PENDING, ocr_engine := "mistral",
             task_type := TASK_TYPE_IMAGE, error_message := none } ∧
    ((process_task
        { download := fun _ => none,
          ocr := fun _ _ =>
            { success := false, error := "invalid api key",
              text_content := "", result_path := "" },
          video := fun _ =>
            { success := false, error := "", text_content := "",
              result_path := "" } }
        (create_task emptyStore none (some "/tmp/w3.jpg") "mistral").2
        1).engineCalls = 1 ∧
     (process_task
        { download := fun _ => none,
          ocr := fun _ _ =>
            { success := false, error := "invalid api key",
              text_content := "", result_path := "" },
          video := fun _ =>
            { success := false, error := "", text_content := "",
              result_path := "" } }
        (create_task emptyStore none (some "/tmp/w3.jpg") "mistral").2
        1).ok = false ∧
     ∃ t', get_task (process_task
        { download := fun _ => none,
          ocr := fun _ _ =>
            { success := false, error := "invalid api key",
              text_content := "", result_path := "" },
          video := fun _ =>
            { success := false, error := "", text_content := "",
              result_path := "" } }
        (create_task emptyStore none (some "/tmp/w3.jpg") "mistral").2
        1).store 1 = some t' ∧ t'.status = TASK_STATUS_FAILED ∧
        t'.error_message = some "invalid api key") := by
  exact ⟨rfl, c3_process_task_terminal_failure _ _ 1 _ "/tmp/w3.jpg" rfl rfl
    (by decide) rfl (by decide)⟩

/-! ### C4 -/

/-- The engine environment of the claim C4 scenario: the OCR engine
always returns `{success: false, error: "rate limited"}`. -/
def envRateLimited : Env :=
  { download := fun _ => none,
    ocr := fun _ _ =>
      { success := false, error := "rate limited", text_content := "",
        result_path := "" },
    video := fun _ =>
      { success := false, error := "", text_content := "", result_path := "" } }

/-- A store holding one image task (id 1) with a local file path. -/
def storeRateLimited : Store :=
  (create_task emptyStore none (some "/tmp/c4.jpg") "local").2

/-- Claim C4, as stated, is false on the code: with an engine that always
returns `{success: false, error: "rate limited"}`, `process_task` does
not exhaust any retries — "rate limited" matches none of the transient
signatures ("频率限制", "Max retries exceeded", "SSLError"), so the
engine is invoked exactly once — and the stored error message is the
engine text "rate limited", which does not mention retry exhaustion (it
does not contain the repository wording "重试" used by every
retry-exhaustion message). -/
theorem c4_counterexample_rate_limited_not_transient :
    (process_task envRateLimited storeRateLimited 1).engineCalls = 1 ∧
    1 < 1 + max_retries ∧
    (process_task envRateLimited storeRateLimited 1).ok = false ∧
    get_task (process_task envRateLimited storeRateLimited 1).store 1 =
      some { id := 1, url := none, file_path := some "/tmp/c4.jpg",
             status := TASK_STATUS_FAILED, ocr_engine := "local",
             task_type := TASK_TYPE_IMAGE,
             error_message := some "rate limited" } ∧
    strContains "rate limited" "重试" = false ∧
    isTransientError "rate limited" = false := by
  refine ⟨rfl, by decide, rfl, rfl, by decide, by decide⟩

/-- Claim C4 (amended): for every stored task holding a (truthy) local
file path whose engine always returns `{success: false, error: "rate
limited"}`, `process_task` marks the task `failed` after exactly one
engine call — no retry occurs, because "rate limited" matches no
transient signature — and the stored error message is the engine error
text "rate limited" (not a retry-exhaustion message). -/
theorem c4_rate_limited_fails_without_retry (env : Env) (s : Store)
    (taskId : Nat) (t : TaskRow) (fp : String)
    (ht : get_task s taskId = some t)
    (hfp : t.file_path = some fp) (hne : (fp == "") = false)
    (hr : (env.ocr t.ocr_engine fp).success = false)
    (he : (env.ocr t.ocr_engine fp).error = "rate limited") :
    (process_task env s taskId).engineCalls = 1 ∧
    (process_task env s taskId).ok = false ∧
    ∃ t', get_task (process_task env s taskId).store taskId = some t' ∧
      t'.status = TASK_STATUS_FAILED ∧
      t'.error_message = some "rate limited" := by
  have hterm : isTransientError (env.ocr t.ocr_engine fp).error = false := by
    rw [he]
    decide
  obtain ⟨h1, h2, t', h3, h4, h5⟩ :=
    c3_process_task_terminal_failure env s taskId t fp ht hfp hne hr hterm
  exact ⟨h1, h2, t', h3, h4, by rw [h5, he]⟩

/-- Witness for `c4_rate_limited_fails_without_retry` on the concrete
rate-limited environment and single-task store. -/
theorem c4_rate_limited_fails_without_retry_witness :
    get_task storeRateLimited 1 =
      some { id := 1, url := none, file_path := some "/tmp/c4.jpg",
             status := TASK_STATUS_PENDING, ocr_engine := "local",
             task_type := TASK_TYPE_IMAGE, error_message := none } ∧
    ((process_task envRateLimited storeRateLimited 1).engineCalls = 1 ∧
     (process_task envRateLimited storeRateLimited 1).ok = false ∧
     ∃ t', get_task (process_task envRateLimited storeRateLimited 1).store 1 =
        some t' ∧ t'.status = TASK_STATUS_FAILED ∧
        t'.error_message = some "rate limited") := by
  exact ⟨rfl, c4_rate_limited_fails_without_retry envRateLimited
    storeRateLimited 1 _ "/tmp/c4.jpg" rfl rfl (by decide) rfl rfl⟩

/-! ### C8 -/

/-- A header-only tabular input: one column, zero data rows. -/
def dfHeaderOnly : DataFrame :=
  { columns := ["title"], rows := [] }

/-- A stand-in for the post-validation pipeline that would succeed and
write an output file, showing that the early return never reaches it. -/
def restWritesOutput : DataFrame → (Bool × String × Option String) × List String :=
  fun _ => ((true, "ok", some "processed_out.csv"), ["processed_out.csv"])

/-- Claim C8, as stated, is false on the code at one input: a tabular
input with zero data rows that lacks the `note_url` column is rejected by
the emptiness check of `validate_csv_structure` first, so
`process_csv_file` returns `(false, "CSV文件为空", none)` — a message
that does not mention the missing column — though still without writing
any output file. -/
theorem c8_counterexample_empty_frame_message :
    process_csv_file (some dfHeaderOnly) restWritesOutput =
      ((false, "CSV文件为空", none), []) ∧
    strContains "CSV文件为空" "note_url" = false := by
  exact ⟨rfl, by decide⟩

/-- Claim C8 (amended): for every tabular input with at least one data
row and at least one column that lacks the required `note_url` column,
`process_csv_file` returns `(false, msg, none)` where `msg` names the
missing column (it contains "note_url"), and — whatever the rest of the
pipeline would do — no output file is written. -/
theorem c8_missing_column_rejected (df : DataFrame)
    (hrows : df.rows ≠ []) (hcols : df.columns ≠ [])
    (hmissing : df.columns.contains "note_url" = false)
    (rest : DataFrame → (Bool × String × Option String) × List String) :
    process_csv_file (some df) rest =
      ((false, "CSV文件缺少必要字段: note_url", none), []) ∧
    strContains "CSV文件缺少必要字段: note_url" "note_url" = true := by
  have h1 : df.rows.isEmpty = false := by
    cases hr : df.rows with
    | nil => exact absurd hr hrows
    | cons a l => rfl
  have h2 : df.columns.isEmpty = false := by
    cases hc : df.columns with
    | nil => exact absurd hc hcols
    | cons a l => rfl
  have hempty : df_empty df = false := by
    unfold df_empty
    rw [h1, h2]
    rfl
  have hc : decide ("note_url" ∈ df.columns) = false := by
    simpa using hmissing
  have hv : validate_csv_structure df ["note_url"] =
      (false, "CSV文件缺少必要字段: note_url") := by
    unfold validate_csv_structure
    rw [hempty]
    simp [hc]
    rfl
  refine ⟨?_, by decide⟩
  simp only [process_csv_file]
  rw [hv]
  simp

/-- Witness for `c8_missing_column_rejected`: a one-row frame with a
single unrelated column. -/
theorem c8_missing_column_rejected_witness :
    ({ columns := ["title"], rows := [["hello"]] } : DataFrame).rows ≠ [] ∧
    (process_csv_file
        (some { columns := ["title"], rows := [["hello"]] })
        restWritesOutput =
      ((false, "CSV文件缺少必要字段: note_url", none), []) ∧
     strContains "CSV文件缺少必要字段: note_url" "note_url" = true) := by
  exact ⟨by decide, c8_missing_column_rejected _ (by decide) (by decide)
    (by decide) restWritesOutput⟩

/-! ### C6 -/

theorem find_append_of_none {α : Type} (p : α → Bool) (l₁ l₂ : List α)
    (h : l₁.find? p = none) : (l₁ ++ l₂).find? p = l₂.find? p := by
  induction l₁ with
  | nil => rfl
  | cons x xs ih =>
    cases hx : p x with
    | true =>
      simp only [List.find?_cons, hx] at h
      exact absurd h (Option.some_ne_none x)
    | false =>
      simp only [List.find?_cons, hx] at h
      simp only [List.cons_append, List.find?_cons, hx]
      exact ih h

theorem intercalate_three (sep x y z : String) :
    String.intercalate sep [x, y, z] = x ++ sep ++ y ++ sep ++ z := by
  simp [String.intercalate, String.intercalate.go]

/-- Claim C6: for a note whose relation was recorded by
`_save_note_task_relation` with image tasks created in order `a`, `b`,
`c`, once all three have results the merged text of
`get_note_ocr_results` is the entry of `a` (marker 1), then the entry of
`b` (marker 2), then the entry of `c` (marker 3), joined by blank lines —
regardless of the order in which the result rows were inserted, since the
hypotheses only constrain the per-task lookups, not the layout of the
results table. -/
theorem c6_note_ocr_results_order (s0 s : Store) (url : String)
    (a b c : Nat) (ra rb rc : ResultRow)
    (h0 : find_relation s0 url = none)
    (hs : s.relations = (save_note_task_relation s0 url [a, b, c] []).2.relations)
    (hra : get_task_result s a = some ra)
    (hrb : get_task_result s b = some rb)
    (hrc : get_task_result s c = some rc) :
    get_note_ocr_results s url =
      ocr_mark 1 ra.text_content ++ "\n\n" ++ ocr_mark 2 rb.text_content ++
        "\n\n" ++ ocr_mark 3 rc.text_content := by
  have h0' : s0.relations.find? (fun r => r.note_url == url) = none := h0
  have hrel : find_relation s url =
      some { id := s0.nextRelationId, note_url := url, task_ids := [a, b, c],
             video_task_ids := [], status := TASK_STATUS_PENDING } := by
    unfold find_relation
    rw [hs]
    unfold save_note_task_relation
    rw [h0]
    show (s0.relations ++ _).find? _ = _
    rw [find_append_of_none _ _ _ h0']
    simp [List.find?]
  unfold get_note_ocr_results
  rw [hrel]
  have henum : ([a, b, c].enum) = [(0, a), (1, b), (2, c)] := rfl
  show String.intercalate "\n\n"
      (([a, b, c].enum).filterMap (fun p =>
        (get_task_result s p.2).map
          (fun r => ocr_mark (p.1 + 1) r.text_content))) = _
  rw [henum]
  simp only [List.filterMap_cons, hra, hrb, hrc, Option.map_some',
    List.filterMap_nil]
  exact intercalate_three "\n\n" _ _ _

/-- Store for the C6 witness: the relation for one note URL lists image
tasks 1, 2, 3 in creation order, while the result rows were inserted in
the reverse completion order (task 3 finished first). -/
def c6Store : Store :=
  { tasks := [],
    results := [{ id := 1, task_id := 3, text_content := "textC",
                  result_path := "/r/c.txt" },
                { id := 2, task_id := 2, text_content := "textB",
                  result_path := "/r/b.txt" },
                { id := 3, task_id := 1, text_content := "textA",
                  result_path := "/r/a.txt" }],
    relations := (save_note_task_relation emptyStore
      "https://www.xiaohongshu.com/explore/n1" [1, 2, 3] []).2.relations,
    nextTaskId := 4, nextResultId := 4, nextRelationId := 2 }

/-- Witness for `c6_note_ocr_results_order`: with completion order C, B,
A in the results table, the merged text still lists A, B, C. -/
theorem c6_note_ocr_results_order_witness :
    find_relation emptyStore "https://www.xiaohongshu.com/explore/n1" = none ∧
    get_note_ocr_results c6Store "https://www.xiaohongshu.com/explore/n1" =
      ocr_mark 1 "textA" ++ "\n\n" ++ ocr_mark 2 "textB" ++ "\n\n" ++
        ocr_mark 3 "textC" := by
  exact ⟨rfl, c6_note_ocr_results_order emptyStore c6Store
    "https://www.xiaohongshu.com/explore/n1" 1 2 3
    { id := 3, task_id := 1, text_content := "textA", result_path := "/r/a.txt" }
    { id := 2, task_id := 2, text_content := "textB", result_path := "/r/b.txt" }
    { id := 1, task_id := 3, text_content := "textC", result_path := "/r/c.txt" }
    rfl rfl rfl rfl rfl⟩

/-! ### C7 -/

theorem all_of_imp (p q : Char → Bool) (h : ∀ x, p x = true → q x = true)
    (l : List Char) (hl : l.all p = true) : l.all q = true := by
  rw [List.all_eq_true] at hl ⊢
  exact fun x hx => h x (hl x hx)

theorem takeWhile_all_self (p : Char → Bool) (l : List Char)
    (h : l.all p = true) : l.takeWhile p = l := by
  induction l with
  | nil => rfl
  | cons x xs ih =>
    simp only [List.all_cons, Bool.and_eq_true] at h
    simp only [List.takeWhile_cons, h.1, if_true]
    rw [ih h.2]

theorem all_takeWhile_self (p : Char → Bool) (l : List Char) :
    (l.takeWhile p).all p = true := by
  induction l with
  | nil => rfl
  | cons x xs ih =>
    cases hx : p x with
    | true =>
      rw [List.takeWhile_cons, if_pos hx, List.all_cons, hx]
      simpa using ih
    | false => simp [List.takeWhile_cons, hx]

theorem takeWhile_append_all (p : Char → Bool) (l₁ l₂ : List Char)
    (h : l₁.all p = true) :
    (l₁ ++ l₂).takeWhile p = l₁ ++ l₂.takeWhile p := by
  induction l₁ with
  | nil => rfl
  | cons x xs ih =>
    simp only [List.all_cons, Bool.and_eq_true] at h
    simp only [List.cons_append, List.takeWhile_cons, h.1, if_true]
    rw [ih h.2]

theorem dropWhile_append_all (p : Char → Bool) (l₁ l₂ : List Char)
    (h : l₁.all p = true) :
    (l₁ ++ l₂).dropWhile p = l₂.dropWhile p := by
  induction l₁ with
  | nil => rfl
  | cons x xs ih =>
    simp only [List.all_cons, Bool.and_eq_true] at h
    simp only [List.cons_append, List.dropWhile_cons, h.1, if_true]
    exact ih h.2

theorem splitAtFirst_append (c : Char) (l₁ l₂ : List Char)
    (h : l₁.all (fun x => !(x == c)) = true) :
    splitAtFirst c (l₁ ++ c :: l₂) = (l₁, some l₂) := by
  induction l₁ with
  | nil => simp [splitAtFirst]
  | cons x xs ih =>
    simp only [List.all_cons, Bool.and_eq_true, Bool.not_eq_true'] at h
    rw [List.cons_append]
    unfold splitAtFirst
    rw [h.1]
    simp only [Bool.false_eq_true, if_false]
    show (x :: (splitAtFirst c (xs ++ c :: l₂)).1,
      (splitAtFirst c (xs ++ c :: l₂)).2) = _
    rw [ih h.2]

theorem isPrefixOf_append_self (l r : List Char) :
    l.isPrefixOf (l ++ r) = true := by
  induction l with
  | nil => simp [List.isPrefixOf]
  | cons x xs ih => simp [List.isPrefixOf, ih]

theorem explore_capture_spec (l cap : List Char)
    (h : explore_capture l = some cap) :
    cap.isEmpty = false ∧ cap.all isAlnumAscii = true := by
  unfold explore_capture at h
  by_cases hp : exploreLit.isPrefixOf l = true
  · rw [if_pos hp] at h
    dsimp only at h
    by_cases he :
        ((l.drop exploreLit.length).takeWhile isAlnumAscii).isEmpty = true
    · rw [if_pos he] at h
      exact Option.noConfusion h
    · rw [if_neg he] at h
      injection h with h'
      subst h'
      exact ⟨Bool.eq_false_iff.mpr he, all_takeWhile_self isAlnumAscii _⟩
  · rw [if_neg hp] at h
    exact Option.noConfusion h

theorem search_explore_spec (l cap : List Char)
    (h : search_explore l = some cap) :
    cap.isEmpty = false ∧ cap.all isAlnumAscii = true := by
  induction l with
  | nil => exact Option.noConfusion h
  | cons x xs ih =>
    unfold search_explore at h
    cases hc : explore_capture (x :: xs) with
    | some cap' =>
      rw [hc] at h
      injection h with h'
      subst h'
      exact explore_capture_spec (x :: xs) cap' hc
    | none =>
      rw [hc] at h
      exact ih h

theorem url_path_canonical (d : List Char)
    (hall : d.all isAlnumAscii = true) :
    url_path (canonical_note_url (String.mk d)) = exploreLit ++ d := by
  have hsplit : splitAtFirst ':'
      ("https".data ++ ':' :: ("//www.xiaohongshu.com/explore/".data ++ d)) =
      ("https".data, some ("//www.xiaohongshu.com/explore/".data ++ d)) :=
    splitAtFirst_append ':' _ _ (by decide)
  have h1 : dropScheme (canonical_note_url (String.mk d)).data =
      "//www.xiaohongshu.com/explore/".data ++ d := by
    unfold dropScheme
    show (match splitAtFirst ':'
        ("https".data ++ ':' :: ("//www.xiaohongshu.com/explore/".data ++ d))
        with
      | (before, some after) =>
        if !before.isEmpty && before.all isSchemeChar &&
            (before.headD ' ').isAlpha then after
        else "https".data ++ ':' ::
          ("//www.xiaohongshu.com/explore/".data ++ d)
      | (_, none) => "https".data ++ ':' ::
          ("//www.xiaohongshu.com/explore/".data ++ d)) = _
    rw [hsplit]
    show (if !List.isEmpty "https".data && List.all "https".data isSchemeChar
        && (List.headD "https".data ' ').isAlpha = true then
        "//www.xiaohongshu.com/explore/".data ++ d
      else _) = _
    rw [if_pos (by decide)]
  have h2 : dropNetloc ("//www.xiaohongshu.com/explore/".data ++ d) =
      exploreLit ++ d := by
    show List.dropWhile (fun c => !(c == '/' || c == '?' || c == '#'))
        ("www.xiaohongshu.com".data ++ '/' :: ("explore/".data ++ d)) =
      exploreLit ++ d
    rw [dropWhile_append_all (fun c => !(c == '/' || c == '?' || c == '#'))
      "www.xiaohongshu.com".data ('/' :: ("explore/".data ++ d)) (by decide)]
    rw [List.dropWhile_cons]
    rw [if_neg (by decide)]
    rfl
  have halnum : ∀ c₀ : Char, isAlnumAscii c₀ = false →
      d.all (fun x => !(x == c₀)) = true := by
    intro c₀ h₀
    refine all_of_imp isAlnumAscii _ ?_ d hall
    intro x hx
    cases hxc : (x == c₀) with
    | true =>
      have hx' : x = c₀ := eq_of_beq hxc
      rw [hx', h₀] at hx
      exact absurd hx (by simp)
    | false => rfl
  have h3 : cutAt '#' (exploreLit ++ d) = exploreLit ++ d := by
    unfold cutAt
    rw [takeWhile_append_all _ _ _ (by decide),
      takeWhile_all_self _ _ (halnum '#' (by decide))]
  have h4 : cutAt '?' (exploreLit ++ d) = exploreLit ++ d := by
    unfold cutAt
    rw [takeWhile_append_all _ _ _ (by decide),
      takeWhile_all_self _ _ (halnum '?' (by decide))]
  unfold url_path
  rw [h1, h2, h3, h4]

theorem search_explore_at_lit (d : List Char)
    (hall : d.all isAlnumAscii = true) (hne : d.isEmpty = false) :
    search_explore (exploreLit ++ d) = some d := by
  have hcap : explore_capture (exploreLit ++ d) = some d := by
    unfold explore_capture
    rw [isPrefixOf_append_self]
    dsimp only
    rw [if_pos rfl]
    rw [List.drop_left, takeWhile_all_self _ _ hall]
    rw [hne]
    rfl
  have hcap' : explore_capture ('/' :: ("explore/".data ++ d)) = some d :=
    hcap
  show search_explore ('/' :: ("explore/".data ++ d)) = some d
  unfold search_explore
  rw [hcap']

theorem normalize_canonical (d : List Char)
    (hall : d.all isAlnumAscii = true) (hne : d.isEmpty = false) :
    normalize_note_url (canonical_note_url (String.mk d)) =
      canonical_note_url (String.mk d) := by
  have hcne : (canonical_note_url (String.mk d) == "") = false := rfl
  have hfind : find_note_id (canonical_note_url (String.mk d)) =
      some (String.mk d) := by
    unfold find_note_id
    rw [url_path_canonical d hall, search_explore_at_lit d hall hne]
    rfl
  unfold normalize_note_url
  rw [hcne, hfind]
  rfl

/-- Claim C7: `_normalize_note_url` is idempotent — normalizing an
already normalized URL returns it unchanged — and any two URLs whose
paths yield the same note identifier under the `/explore/<id>` regex
normalize to the identical canonical string, whatever cosmetic
differences (query parameters, fragments, host decoration) they carry. -/
theorem c7_normalize_note_url_idempotent_canonical :
    (∀ u : String,
      normalize_note_url (normalize_note_url u) = normalize_note_url u) ∧
    (∀ u₁ u₂ noteId : String, find_note_id u₁ = some noteId →
      find_note_id u₂ = some noteId →
      normalize_note_url u₁ = normalize_note_url u₂) := by
  constructor
  · intro u
    cases hemp : (u == "") with
    | true =>
      have hu : u = "" := eq_of_beq hemp
      subst hu
      rfl
    | false =>
      cases hid : find_note_id u with
      | none =>
        have hnu : normalize_note_url u = u := by
          unfold normalize_note_url
          rw [hemp, hid]
          rfl
        rw [hnu, hnu]
      | some noteId =>
        have hnu : normalize_note_url u = canonical_note_url noteId := by
          unfold normalize_note_url
          rw [hemp, hid]
          rfl
        obtain ⟨l, hl, rfl⟩ : ∃ l, search_explore (url_path u) = some l ∧
            String.mk l = noteId := by
          unfold find_note_id at hid
          obtain ⟨l, hl1, hl2⟩ := Option.map_eq_some'.mp hid
          exact ⟨l, hl1, hl2⟩
        obtain ⟨hne, hall⟩ := search_explore_spec _ _ hl
        rw [hnu]
        exact normalize_canonical l hall hne
  · intro u₁ u₂ noteId h₁ h₂
    have hne₁ : (u₁ == "") = false := by
      cases he : (u₁ == "") with
      | true =>
        have hu : u₁ = "" := eq_of_beq he
        subst hu
        exact absurd h₁ (by intro hc; exact Option.noConfusion hc)
      | false => rfl
    have hne₂ : (u₂ == "") = false := by
      cases he : (u₂ == "") with
      | true =>
        have hu : u₂ = "" := eq_of_beq he
        subst hu
        exact absurd h₂ (by intro hc; exact Option.noConfusion hc)
      | false => rfl
    unfold normalize_note_url
    rw [hne₁, hne₂, h₁, h₂]

/-- Witness for `c7_normalize_note_url_idempotent_canonical`: two
decorated URLs for note `64abc123` — one carrying query parameters, one
carrying a fragment on a bare host — normalize identically, and
normalizing the first URL twice equals normalizing it once. -/
theorem c7_normalize_note_url_idempotent_canonical_witness :
    find_note_id
        "https://www.xiaohongshu.com/explore/64abc123?xsec_token=AB12&source=web" =
      some "64abc123" ∧
    find_note_id "http://xiaohongshu.com/explore/64abc123#comments" =
      some "64abc123" ∧
    normalize_note_url
        "https://www.xiaohongshu.com/explore/64abc123?xsec_token=AB12&source=web" =
      normalize_note_url "http://xiaohongshu.com/explore/64abc123#comments" ∧
    normalize_note_url (normalize_note_url
        "https://www.xiaohongshu.com/explore/64abc123?xsec_token=AB12&source=web") =
      normalize_note_url
        "https://www.xiaohongshu.com/explore/64abc123?xsec_token=AB12&source=web" := by
  refine ⟨rfl, rfl, ?_, ?_⟩
  · exact c7_normalize_note_url_idempotent_canonical.2
      "https://www.xiaohongshu.com/explore/64abc123?xsec_token=AB12&source=web"
      "http://xiaohongshu.com/explore/64abc123#comments" "64abc123" rfl rfl
  · exact c7_normalize_note_url_idempotent_canonical.1
      "https://www.xiaohongshu.com/explore/64abc123?xsec_token=AB12&source=web"

/-! ### C5 -/

theorem download_step_frame_inl (env : Env) (taskId : Nat)
    (url fp : Option String) (s sf : Store)
    (h : download_step env taskId url fp s = Sum.inl sf)
    (otherId : Nat) (hne : otherId ≠ taskId) :
    get_task sf otherId = get_task s otherId := by
  unfold download_step at h
  split at h
  · split at h
    · injection h with h'
      rw [← h']
      exact get_task_update_status_other s taskId otherId _ _ hne
    · split at h
      · injection h with h'
        rw [← h']
        exact get_task_update_status_other s taskId otherId _ _ hne
      · exact Sum.noConfusion h
  · exact Sum.noConfusion h

theorem download_step_frame_inr (env : Env) (taskId : Nat)
    (url fp : Option String) (s : Store) (fp' : Option String) (s1 : Store)
    (h : download_step env taskId url fp s = Sum.inr (fp', s1))
    (otherId : Nat) (hne : otherId ≠ taskId) :
    get_task s1 otherId = get_task s otherId := by
  unfold download_step at h
  split at h
  · split at h
    · exact Sum.noConfusion h
    · split at h
      · exact Sum.noConfusion h
      · injection h with h'
        injection h' with h1 h2
        subst h1
        subst h2
        exact get_task_update_file_path_other s taskId otherId _ hne
  · injection h with h'
    injection h' with h1 h2
    subst h1
    subst h2
    rfl

theorem process_loop_frame (env : Env) (taskId : Nat) (eng : String)
    (url : Option String) (fuel : Nat) :
    ∀ (fp : Option String) (s : Store) (calls otherId : Nat),
      otherId ≠ taskId →
      get_task ((process_loop env taskId eng url fp s fuel calls).store)
        otherId = get_task s otherId := by
  induction fuel with
  | zero =>
    intro fp s calls otherId hne
    exact get_task_update_status_other s taskId otherId _ _ hne
  | succ k ih =>
    intro fp s calls otherId hne
    simp only [process_loop]
    cases hd : download_step env taskId url fp s with
    | inl sf =>
      exact download_step_frame_inl env taskId url fp s sf hd otherId hne
    | inr pr =>
      obtain ⟨fp', s1⟩ := pr
      have hs1 := download_step_frame_inr env taskId url fp s fp' s1 hd
        otherId hne
      dsimp only
      split
      · rw [get_task_update_status_other _ taskId otherId _ _ hne,
          get_task_create_result_other _ taskId otherId _ _ hne, hs1]
      · split
        · split
          · rw [get_task_update_status_other _ taskId otherId _ _ hne, hs1]
          · rw [ih fp' s1 (calls + 1) otherId hne, hs1]
        · rw [get_task_update_status_other _ taskId otherId _ _ hne, hs1]

theorem process_task_frame (env : Env) (s : Store) (taskId otherId : Nat)
    (hne : otherId ≠ taskId) :
    get_task ((process_task env s taskId).store) otherId =
      get_task s otherId := by
  unfold process_task
  cases hg : get_task s taskId with
  | none => rfl
  | some t =>
    dsimp only
    rw [process_loop_frame env taskId t.ocr_engine t.url _ t.file_path _ 0
      otherId hne]
    exact get_task_update_status_other s taskId otherId _ _ hne

theorem download_step_cases (env : Env) (taskId : Nat)
    (url fp : Option String) (s s' : Store) :
    (∃ sf sf', download_step env taskId url fp s = Sum.inl sf ∧
      download_step env taskId url fp s' = Sum.inl sf') ∨
    (∃ fp' s1 s1', download_step env taskId url fp s = Sum.inr (fp', s1) ∧
      download_step env taskId url fp s' = Sum.inr (fp', s1')) := by
  unfold download_step
  by_cases h1 : (truthy url && !truthy fp) = true
  · rw [if_pos h1, if_pos h1]
    cases env.download (url.getD "") with
    | none => exact Or.inl ⟨_, _, rfl, rfl⟩
    | some p =>
      dsimp only
      by_cases h2 : (p == "") = true
      · rw [if_pos h2, if_pos h2]
        exact Or.inl ⟨_, _, rfl, rfl⟩
      · rw [if_neg h2, if_neg h2]
        exact Or.inr ⟨_, _, _, rfl, rfl⟩
  · rw [if_neg h1, if_neg h1]
    exact Or.inr ⟨_, _, _, rfl, rfl⟩

theorem process_loop_ok_indep (env : Env) (taskId : Nat) (eng : String)
    (url : Option String) (fuel : Nat) :
    ∀ (fp : Option String) (calls : Nat) (s s' : Store),
      (process_loop env taskId eng url fp s fuel calls).ok =
        (process_loop env taskId eng url fp s' fuel calls).ok := by
  induction fuel with
  | zero => intro fp calls s s'; rfl
  | succ k ih =>
    intro fp calls s s'
    simp only [process_loop]
    rcases download_step_cases env taskId url fp s s' with
      ⟨sf, sf', h, h'⟩ | ⟨fp', s1, s1', h, h'⟩
    · rw [h, h']
    · rw [h, h']
      dsimp only
      by_cases hsuc : (env.ocr eng (fp'.getD "")).success = true
      · rw [if_pos hsuc, if_pos hsuc]
      · rw [if_neg hsuc, if_neg hsuc]
        by_cases htr : isTransientError (env.ocr eng (fp'.getD "")).error =
            true
        · rw [if_pos htr, if_pos htr]
          by_cases hf : (k == 0) = true
          · rw [if_pos hf, if_pos hf]
          · rw [if_neg hf, if_neg hf]
            exact ih fp' (calls + 1) s1 s1'
        · rw [if_neg htr, if_neg htr]

theorem process_task_ok_of_get_eq (env : Env) (s s' : Store) (taskId : Nat)
    (h : get_task s taskId = get_task s' taskId) :
    (process_task env s taskId).ok = (process_task env s' taskId).ok := by
  unfold process_task
  rw [h]
  cases hg : get_task s' taskId with
  | none => rfl
  | some t =>
    dsimp only
    exact process_loop_ok_indep env taskId t.ocr_engine t.url _ t.file_path 0
      _ _

theorem process_video_input_frame (env : Env) (taskId : Nat) (input : String)
    (s : Store) (otherId : Nat) (hne : otherId ≠ taskId) :
    get_task ((process_video_input env taskId input s).store) otherId =
      get_task s otherId := by
  unfold process_video_input
  dsimp only
  split
  · rw [get_task_update_status_other _ taskId otherId _ _ hne,
      get_task_create_result_other _ taskId otherId _ _ hne]
  · exact get_task_update_status_other _ taskId otherId _ _ hne

theorem process_video_input_ok_indep (env : Env) (taskId : Nat)
    (input : String) (s s' : Store) :
    (process_video_input env taskId input s).ok =
      (process_video_input env taskId input s').ok := by
  unfold process_video_input
  dsimp only
  by_cases h : (env.video input).success = true
  · rw [if_pos h, if_pos h]
  · rw [if_neg h, if_neg h]

theorem process_video_task_frame (env : Env) (s : Store)
    (taskId otherId : Nat) (hne : otherId ≠ taskId) :
    get_task ((process_video_task env s taskId).store) otherId =
      get_task s otherId := by
  unfold process_video_task
  cases hg : get_task s taskId with
  | none => rfl
  | some t =>
    dsimp only
    split
    · split
      · rw [process_video_input_frame env taskId _ _ otherId hne]
        exact get_task_update_status_other s taskId otherId _ _ hne
      · cases hdl : env.download (t.url.getD "") with
        | none =>
          rw [get_task_update_status_other _ taskId otherId _ _ hne]
          exact get_task_update_status_other s taskId otherId _ _ hne
        | some p =>
          dsimp only
          by_cases hp : (p == "") = true
          · rw [if_pos hp]
            rw [get_task_update_status_other _ taskId otherId _ _ hne]
            exact get_task_update_status_other s taskId otherId _ _ hne
          · rw [if_neg hp]
            rw [process_video_input_frame env taskId _ _ otherId hne,
              get_task_update_file_path_other _ taskId otherId _ hne]
            exact get_task_update_status_other s taskId otherId _ _ hne
    · split
      · rw [process_video_input_frame env taskId _ _ otherId hne]
        exact get_task_update_status_other s taskId otherId _ _ hne
      · rw [get_task_update_status_other _ taskId otherId _ _ hne]
        exact get_task_update_status_other s taskId otherId _ _ hne

theorem process_video_task_ok_of_get_eq (env : Env) (s s' : Store)
    (taskId : Nat) (h : get_task s taskId = get_task s' taskId) :
    (process_video_task env s taskId).ok =
      (process_video_task env s' taskId).ok := by
  unfold process_video_task
  rw [h]
  cases hg : get_task s' taskId with
  | none => rfl
  | some t =>
    dsimp only
    by_cases h1 : (truthy t.url && !truthy t.file_path) = true
    · rw [if_pos h1, if_pos h1]
      by_cases h2 : isXhsUrl (t.url.getD "") = true
      · rw [if_pos h2, if_pos h2]
        exact process_video_input_ok_indep env taskId _ _ _
      · rw [if_neg h2, if_neg h2]
        cases hdl : env.download (t.url.getD "") with
        | none => rfl
        | some p =>
          dsimp only
          by_cases hp : (p == "") = true
          · rw [if_pos hp, if_pos hp]
          · rw [if_neg hp, if_neg hp]
            exact process_video_input_ok_indep env taskId _ _ _
    · rw [if_neg h1, if_neg h1]
      by_cases h3 : truthy t.file_path = true
      · rw [if_pos h3, if_pos h3]
        exact process_video_input_ok_indep env taskId _ _ _
      · rw [if_neg h3, if_neg h3]

theorem run_all_keys (f : Store → Nat → ProcOutcome) (l : List Nat) :
    ∀ s : Store, ((run_all f s l).1).map Prod.fst = l := by
  induction l with
  | nil => intro s; rfl
  | cons j rest ih =>
    intro s
    simp only [run_all]
    rw [List.map_cons]
    rw [ih (f s j).store]

theorem run_all_store_frame (f : Store → Nat → ProcOutcome)
    (hframe : ∀ (s : Store) (j i : Nat), i ≠ j →
      get_task ((f s j).store) i = get_task s i)
    (l : List Nat) :
    ∀ (s : Store) (i : Nat), i ∉ l →
      get_task ((run_all f s l).2) i = get_task s i := by
  induction l with
  | nil => intro s i _; rfl
  | cons j rest ih =>
    intro s i hi
    simp only [run_all]
    rw [ih (f s j).store i (fun hm => hi (List.mem_cons_of_mem j hm))]
    exact hframe s j i (fun he => hi (he ▸ List.mem_cons_self j rest))

theorem run_all_lookup (f : Store → Nat → ProcOutcome)
    (hframe : ∀ (s : Store) (j i : Nat), i ≠ j →
      get_task ((f s j).store) i = get_task s i)
    (hok : ∀ (s s' : Store) (i : Nat), get_task s i = get_task s' i →
      (f s i).ok = (f s' i).ok)
    (l : List Nat) :
    ∀ (s : Store) (i : Nat), i ∈ l →
      List.lookup i (run_all f s l).1 = some ((f s i).ok) := by
  induction l with
  | nil => intro s i hi; exact absurd hi (List.not_mem_nil i)
  | cons j rest ih =>
    intro s i hi
    simp only [run_all]
    by_cases hij : i = j
    · subst hij
      simp [List.lookup]
    · have hb : (i == j) = false := beq_eq_false_iff_ne.mpr hij
      simp only [List.lookup, hb]
      have hmem : i ∈ rest := by
        cases List.mem_cons.mp hi with
        | inl h => exact absurd h hij
        | inr h => exact h
      rw [ih (f s j).store i hmem]
      rw [hok (f s j).store s i (hframe s j i hij)]

theorem lookup_append_of_not_key (i : Nat) (l₁ l₂ : List (Nat × Bool))
    (h : ∀ p ∈ l₁, p.1 ≠ i) :
    List.lookup i (l₁ ++ l₂) = List.lookup i l₂ := by
  induction l₁ with
  | nil => rfl
  | cons x xs ih =>
    have hb : (i == x.1) = false :=
      beq_eq_false_iff_ne.mpr (Ne.symm (h x (List.mem_cons_self x xs)))
    rw [List.cons_append]
    simp only [List.lookup, hb]
    exact ih (fun p hp => h p (List.mem_cons_of_mem x hp))

theorem lookup_append_of_some (i : Nat) (l₁ l₂ : List (Nat × Bool))
    (v : Bool) (h : List.lookup i l₁ = some v) :
    List.lookup i (l₁ ++ l₂) = some v := by
  induction l₁ with
  | nil => exact absurd h (Option.noConfusion)
  | cons x xs ih =>
    rw [List.cons_append]
    cases hx : (i == x.1) with
    | true =>
      simp only [List.lookup, hx] at h ⊢
      exact h
    | false =>
      simp only [List.lookup, hx] at h ⊢
      exact ih h

theorem lookup_map_false (i : Nat) (l : List Nat) (h : i ∈ l) :
    List.lookup i (l.map (fun j => (j, false))) = some false := by
  induction l with
  | nil => exact absurd h (List.not_mem_nil i)
  | cons j rest ih =>
    rw [List.map_cons]
    cases hij : (i == j) with
    | true => simp only [List.lookup, hij]
    | false =>
      simp only [List.lookup, hij]
      have hmem : i ∈ rest := by
        cases List.mem_cons.mp h with
        | inl he =>
          subst he
          rw [beq_self_eq_true] at hij
          exact Bool.noConfusion hij
        | inr hm => exact hm
      exact ih hmem

/-- Claim C5: `process_tasks_in_parallel` returns a mapping in which every
id with no stored task is mapped to false, every stored task of image
kind is mapped to the result of `process_task` on it (evaluated against
the store as dispatched — the frame lemmas show processing other,
distinct tasks cannot change its outcome), and every stored task of video
kind is mapped to the result of `process_video_task` on it. -/
theorem c5_process_tasks_in_parallel_dispatch (env : Env) (s : Store)
    (taskIds : List Nat) (i : Nat) (hi : i ∈ taskIds) :
    (get_task s i = none →
      List.lookup i (process_tasks_in_parallel env s taskIds).1 =
        some false) ∧
    (∀ t : TaskRow, get_task s i = some t →
      t.task_type = TASK_TYPE_IMAGE →
      List.lookup i (process_tasks_in_parallel env s taskIds).1 =
        some ((process_task env s i).ok)) ∧
    (∀ t : TaskRow, get_task s i = some t →
      t.task_type = TASK_TYPE_VIDEO →
      List.lookup i (process_tasks_in_parallel env s taskIds).1 =
        some ((process_video_task env s i).ok)) := by
  have hframe : ∀ (s' : Store) (j i' : Nat), i' ≠ j →
      get_task ((process_task env s' j).store) i' = get_task s' i' :=
    fun s' j i' hne => process_task_frame env s' j i' hne
  have hok : ∀ (s1 s2 : Store) (i' : Nat),
      get_task s1 i' = get_task s2 i' →
      (process_task env s1 i').ok = (process_task env s2 i').ok :=
    fun s1 s2 i' hg => process_task_ok_of_get_eq env s1 s2 i' hg
  have hvframe : ∀ (s' : Store) (j i' : Nat), i' ≠ j →
      get_task ((process_video_task env s' j).store) i' = get_task s' i' :=
    fun s' j i' hne => process_video_task_frame env s' j i' hne
  have hvok : ∀ (s1 s2 : Store) (i' : Nat),
      get_task s1 i' = get_task s2 i' →
      (process_video_task env s1 i').ok =
        (process_video_task env s2 i').ok :=
    fun s1 s2 i' hg => process_video_task_ok_of_get_eq env s1 s2 i' hg
  have hmain : (process_tasks_in_parallel env s taskIds).1 =
      (taskIds.filter (fun j => (get_task s j).isNone)).map
          (fun j => (j, false)) ++
        (run_all (process_task env) s (taskIds.filter (fun j =>
          match get_task s j with
          | some t => t.task_type == TASK_TYPE_IMAGE
          | none => false))).1 ++
        (run_all (process_video_task env)
          (run_all (process_task env) s (taskIds.filter (fun j =>
            match get_task s j with
            | some t => t.task_type == TASK_TYPE_IMAGE
            | none => false))).2
          (taskIds.filter (fun j =>
            match get_task s j with
            | some t => t.task_type == TASK_TYPE_VIDEO
            | none => false))).1 := rfl
  refine ⟨?_, ?_, ?_⟩
  · intro h
    have hm : i ∈ taskIds.filter (fun j => (get_task s j).isNone) :=
      List.mem_filter.mpr ⟨hi, by rw [h]; rfl⟩
    have hA := lookup_map_false i _ hm
    rw [hmain]
    exact lookup_append_of_some i _ _ false
      (lookup_append_of_some i _ _ false hA)
  · intro t ht himg
    have hAkeys : ∀ p ∈ (taskIds.filter
        (fun j => (get_task s j).isNone)).map (fun j => (j, false)),
        p.1 ≠ i := by
      intro p hp he
      obtain ⟨j, hj, rfl⟩ := List.mem_map.mp hp
      have hmf := (List.mem_filter.mp hj).2
      rw [show j = i from he, ht] at hmf
      exact Bool.noConfusion hmf
    have hp : (match get_task s i with
        | some u => u.task_type == TASK_TYPE_IMAGE
        | none => false) = true := by
      rw [ht]
      show (t.task_type == TASK_TYPE_IMAGE) = true
      rw [himg]
      exact beq_self_eq_true _
    have hmemI : i ∈ taskIds.filter (fun j =>
        match get_task s j with
        | some u => u.task_type == TASK_TYPE_IMAGE
        | none => false) :=
      List.mem_filter.mpr ⟨hi, hp⟩
    have hB := run_all_lookup (process_task env) hframe hok _ s i hmemI
    rw [hmain, List.append_assoc]
    rw [lookup_append_of_not_key i _ _ hAkeys]
    exact lookup_append_of_some i _ _ _ hB
  · intro t ht hvid
    have hAkeys : ∀ p ∈ (taskIds.filter
        (fun j => (get_task s j).isNone)).map (fun j => (j, false)),
        p.1 ≠ i := by
      intro p hp he
      obtain ⟨j, hj, rfl⟩ := List.mem_map.mp hp
      have hmf := (List.mem_filter.mp hj).2
      rw [show j = i from he, ht] at hmf
      exact Bool.noConfusion hmf
    have hnotI : i ∉ taskIds.filter (fun j =>
        match get_task s j with
        | some u => u.task_type == TASK_TYPE_IMAGE
        | none => false) := by
      intro hmem
      have hmf := (List.mem_filter.mp hmem).2
      rw [ht] at hmf
      have heq : t.task_type = TASK_TYPE_IMAGE := eq_of_beq hmf
      rw [hvid] at heq
      exact absurd heq (by decide)
    have hBkeys : ∀ p ∈ (run_all (process_task env) s (taskIds.filter
        (fun j => match get_task s j with
          | some u => u.task_type == TASK_TYPE_IMAGE
          | none => false))).1, p.1 ≠ i := by
      intro p hp he
      have hk := List.mem_map_of_mem Prod.fst hp
      rw [run_all_keys] at hk
      rw [he] at hk
      exact hnotI hk
    have hABkeys : ∀ p ∈ (taskIds.filter
          (fun j => (get_task s j).isNone)).map (fun j => (j, false)) ++
        (run_all (process_task env) s (taskIds.filter
          (fun j => match get_task s j with
            | some u => u.task_type == TASK_TYPE_IMAGE
            | none => false))).1, p.1 ≠ i := by
      intro p hp
      cases List.mem_append.mp hp with
      | inl h1 => exact hAkeys p h1
      | inr h2 => exact hBkeys p h2
    have hp : (match get_task s i with
        | some u => u.task_type == TASK_TYPE_VIDEO
        | none => false) = true := by
      rw [ht]
      show (t.task_type == TASK_TYPE_VIDEO) = true
      rw [hvid]
      exact beq_self_eq_true _
    have hmemV : i ∈ taskIds.filter (fun j =>
        match get_task s j with
        | some u => u.task_type == TASK_TYPE_VIDEO
        | none => false) :=
      List.mem_filter.mpr ⟨hi, hp⟩
    have hs1 := run_all_store_frame (process_task env) hframe _ s i hnotI
    have hC := run_all_lookup (process_video_task env) hvframe hvok _
      (run_all (process_task env) s (taskIds.filter
        (fun j => match get_task s j with
          | some u => u.task_type == TASK_TYPE_IMAGE
          | none => false))).2 i hmemV
    rw [hmain]
    rw [lookup_append_of_not_key i _ _ hABkeys]
    rw [hC]
    exact congrArg some (process_video_task_ok_of_get_eq env _ s i hs1)

/-- Collaborators for the C5 witness: downloads fail, OCR and video
engines both succeed. -/
def c5Env : Env :=
  { download := fun _ => none,
    ocr := fun _ _ =>
      { success := true, error := "", text_content := "img text",
        result_path := "/r/i.txt" },
    video := fun _ =>
      { success := true, error := "", text_content := "vid text",
        result_path := "/r/v.txt" } }

/-- Store for the C5 witness: task 1 is an image task with a local file
path, task 2 a video task with a platform URL; id 7 has no row. -/
def c5Store : Store :=
  (create_video_task (create_task emptyStore none (some "/tmp/c5.jpg")
      "local").2
    (some "https://www.xiaohongshu.com/video/1.mp4") none
    "ali_paraformer_v2").2

/-- Witness for `c5_process_tasks_in_parallel_dispatch` on the concrete
three-id batch [1, 2, 7]. -/
theorem c5_process_tasks_in_parallel_dispatch_witness :
    List.lookup 7 (process_tasks_in_parallel c5Env c5Store [1, 2, 7]).1 =
      some false ∧
    List.lookup 1 (process_tasks_in_parallel c5Env c5Store [1, 2, 7]).1 =
      some ((process_task c5Env c5Store 1).ok) ∧
    List.lookup 2 (process_tasks_in_parallel c5Env c5Store [1, 2, 7]).1 =
      some ((process_video_task c5Env c5Store 2).ok) := by
  refine ⟨?_, ?_, ?_⟩
  · exact (c5_process_tasks_in_parallel_dispatch c5Env c5Store [1, 2, 7] 7
      (by decide)).1 rfl
  · exact (c5_process_tasks_in_parallel_dispatch c5Env c5Store [1, 2, 7] 1
      (by decide)).2.1
      { id := 1, url := none, file_path := some "/tmp/c5.jpg",
        status := TASK_STATUS_PENDING, ocr_engine := "local",
        task_type := TASK_TYPE_IMAGE, error_message := none } rfl rfl
  · exact (c5_process_tasks_in_parallel_dispatch c5Env c5Store [1, 2, 7] 2
      (by decide)).2.2
      { id := 2, url := some "https://www.xiaohongshu.com/video/1.mp4",
        file_path := none, status := TASK_STATUS_PENDING,
        ocr_engine := "ali_paraformer_v2", task_type := TASK_TYPE_VIDEO,
        error_message := none } rfl rfl
